import Mathlib

/-!
Verification of the frame-sampling / sliding-window / sequential-analysis
pipeline of a video-analysis program.

The program consists of a `VideoAnalyzer` orchestrator (video download, frame
sampling, sliding-window segmentation, per-window description generation,
final summary, cleanup) and a `BedrockClient` (model invocation, token-usage
accounting, JSON parsing of model responses).

Pure computations are translated directly to Lean functions.  The effectful
parts (model invocation, JSON parsing, the file system) are embedded with
explicit state passing: model calls become an oracle returning `Except`
(an exception or a parsed result), responses are explicit records, and the
file system is a record of existence flags for the two scratch directories
the program touches.
-/

namespace VideoAnalyzer

/-- A set of sampled frames: file paths with their native frame indices
(the `SampledFrames` interface of the source). -/
structure SampledFrames where
  framePaths : List String
  indices : List Nat
deriving DecidableEq, Repr

/-- `framePaths.slice(i, i + batchSize)` together with
`indices.slice(i, i + batchSize)`: one window pushed by the loop body of
`applySlidingWindow`.  JavaScript `slice(i, i + b)` is drop `i` then take `b`
(clamped at the end of the array). -/
def windowSlice (sf : SampledFrames) (batchSize i : Nat) : SampledFrames :=
  { framePaths := (sf.framePaths.drop i).take batchSize
    indices := (sf.indices.drop i).take batchSize }

/-- The window-generation loop of `applySlidingWindow`:
`for (let i = 0; i <= lastStart; i += slideSize) windows.push(...)`.
Embedded with explicit fuel; `none` means the fuel ran out, so for a given
fuel bound the loop has not yet terminated (with `slideSize = 0` the index
never advances and no amount of fuel suffices). -/
def windowLoop (sf : SampledFrames) (batchSize slideSize lastStart : Nat) :
    Nat → Nat → Option (List SampledFrames)
  | 0, _ => none
  | fuel + 1, i =>
    if i ≤ lastStart then
      match windowLoop sf batchSize slideSize lastStart fuel (i + slideSize) with
      | some rest => some (windowSlice sf batchSize i :: rest)
      | none => none
    else
      some []

/-- The coverage warning computed by `applySlidingWindow` (lines 341–353):
`remainingFrames = (totalFrames - batchSize) % slideSize`; when it is nonzero
the code warns with that count and with the recommended slide sizes
`Array.from({length: batchSize - 1}, (_, i) => i + 1).filter(i => (totalFrames - batchSize) % i === 0)`,
i.e. the values `1 .. batchSize - 1` dividing `totalFrames - batchSize`. -/
def coverageWarning (totalFrames batchSize slideSize : Nat) :
    Option (Nat × List Nat) :=
  let remainingFrames := (totalFrames - batchSize) % slideSize
  if remainingFrames ≠ 0 then
    some (remainingFrames,
      ((List.range (batchSize - 1)).map (fun i => i + 1)).filter
        (fun i => (totalFrames - batchSize) % i == 0))
  else
    none

/-- Result of one segmentation call: the advisory warning (if any) that the
code logs, and the produced window list. -/
structure SegmentationResult where
  warning : Option (Nat × List Nat)
  windows : List SampledFrames
deriving DecidableEq, Repr

/-- `applySlidingWindow(sampledFrames, batchSize, slideSize)`.  Throws when
`batchSize > totalFrames`; otherwise computes the advisory coverage warning
and runs the window loop from start index `0`.  The loop is run with fuel
`lastStart + 2`, which suffices whenever `slideSize ≥ 1`; fuel exhaustion
(only possible for `slideSize = 0`, where the source loop diverges) is
reported as an error. -/
def applySlidingWindow (sf : SampledFrames) (batchSize slideSize : Nat) :
    Except String SegmentationResult :=
  let totalFrames := sf.framePaths.length
  if batchSize > totalFrames then
    Except.error ("배치 크기(" ++ toString batchSize ++ ")는 총 프레임 수(" ++
      toString totalFrames ++ ")보다 클 수 없습니다")
  else
    let lastStart := totalFrames - batchSize
    match windowLoop sf batchSize slideSize lastStart (lastStart + 2) 0 with
    | some ws =>
      Except.ok { warning := coverageWarning totalFrames batchSize slideSize
                  windows := ws }
    | none => Except.error "sliding-window loop did not terminate"

end VideoAnalyzer

namespace BedrockClient

/-- Parsed result of one per-window analysis call
(the `FrameAnalysisResult` interface). -/
structure FrameAnalysisResult where
  sequence_summary : String
  key_events : List ((Nat × Nat) × String)
deriving DecidableEq, Repr

end BedrockClient

namespace VideoAnalyzer

/-- One per-window model call as seen by the orchestrator:
`bedrock.analyzeFrames(base64Frames, window.indices, prevFrameDesc)` either
throws (`Except.error`, covering both a failed invocation and a response that
fails JSON parsing) or returns a parsed `FrameAnalysisResult`. -/
abbrev AnalyzeOracle :=
  SampledFrames → String → Except String BedrockClient.FrameAnalysisResult

/-- The placeholder description pushed when a window's analysis fails
(line 423 of the orchestrator source). -/
def failureText : String := "[오류: 이 윈도우 분석에 실패했습니다.]"

/-- The loop body of `generateFrameDescriptions`: on success push the window's
`sequence_summary` and make it the new `prevFrameDesc`; on failure push the
placeholder and leave `prevFrameDesc` unchanged. -/
def gfdLoop (oracle : AnalyzeOracle) :
    List SampledFrames → String → List String
  | [], _ => []
  | w :: ws, prev =>
    match oracle w prev with
    | Except.ok r => r.sequence_summary :: gfdLoop oracle ws r.sequence_summary
    | Except.error _ => failureText :: gfdLoop oracle ws prev

/-- Instrumented run of the same loop, recording for every window the context
string passed to its analysis call together with that call's outcome.  Ghost
version of `gfdLoop`, used to state context-propagation properties. -/
def gfdTrace (oracle : AnalyzeOracle) :
    List SampledFrames → String →
      List (String × Except String BedrockClient.FrameAnalysisResult)
  | [], _ => []
  | w :: ws, prev =>
    match oracle w prev with
    | Except.ok r => (prev, Except.ok r) :: gfdTrace oracle ws r.sequence_summary
    | Except.error e => (prev, Except.error e) :: gfdTrace oracle ws prev

/-- The context after processing one trace entry: the summary when the call
succeeded, the unchanged incoming context when it failed. -/
def ctxAfter (e : String × Except String BedrockClient.FrameAnalysisResult) :
    String :=
  match e.2 with
  | Except.ok r => r.sequence_summary
  | Except.error _ => e.1

/-- The description recorded for one trace entry: the summary on success,
the placeholder on failure. -/
def entryDescription
    (e : String × Except String BedrockClient.FrameAnalysisResult) : String :=
  match e.2 with
  | Except.ok r => r.sequence_summary
  | Except.error _ => failureText

/-- `generateFrameDescriptions(windows)`: the per-window loop started with
`prevFrameDesc = "None"`. -/
def generateFrameDescriptions (oracle : AnalyzeOracle)
    (windows : List SampledFrames) : List String :=
  gfdLoop oracle windows "None"

end VideoAnalyzer

namespace BedrockClient

/-- Running token totals (the `TokenUsage` interface / `totalTokens` field of
`BedrockClient`). -/
structure TokenUsage where
  inputTokens : Nat
  outputTokens : Nat
  totalTokens : Nat
deriving DecidableEq, Repr

/-- The `usage` object of a raw Bedrock response body; each token field may
itself be absent (the code reads `usage.input_tokens || 0`). -/
structure RawUsage where
  input_tokens : Option Nat
  output_tokens : Option Nat
deriving DecidableEq, Repr

/-- The parsed raw response body of one `InvokeModelCommand`: an optional
`usage` object and the text of `content[0]`. -/
structure ResponseBody where
  usage : Option RawUsage
  text : String
deriving DecidableEq, Repr

/-- The `ApiResponse` returned by `invokeModel`: the response text and the
per-call token usage. -/
structure ApiResponse where
  text : String
  token_usage : TokenUsage
deriving DecidableEq, Repr

/-- The accumulator update performed by `invokeModel` (lines 317–322): only
when the response body has a `usage` object are `inputTokens` and
`outputTokens` incremented (missing fields count as 0) and `totalTokens`
recomputed as their sum; otherwise the accumulator is untouched. -/
def invokeModelUpdate (acc : TokenUsage) (body : ResponseBody) : TokenUsage :=
  match body.usage with
  | some u =>
    let i := acc.inputTokens + u.input_tokens.getD 0
    let o := acc.outputTokens + u.output_tokens.getD 0
    { inputTokens := i, outputTokens := o, totalTokens := i + o }
  | none => acc

/-- `invokeModel`: updates the accumulator from the response body and returns
the response text with this call's own usage figures
(`usage?.input_tokens || 0` etc.). -/
def invokeModel (acc : TokenUsage) (body : ResponseBody) :
    TokenUsage × ApiResponse :=
  (invokeModelUpdate acc body,
   { text := body.text
     token_usage :=
       { inputTokens := (body.usage.bind RawUsage.input_tokens).getD 0
         outputTokens := (body.usage.bind RawUsage.output_tokens).getD 0
         totalTokens := (body.usage.bind RawUsage.input_tokens).getD 0 +
           (body.usage.bind RawUsage.output_tokens).getD 0 } })

/-- This call's contribution to the accumulated input tokens: zero when the
response carries no `usage` object, else `usage.input_tokens || 0`. -/
def callInputTokens (body : ResponseBody) : Nat :=
  (body.usage.map (fun u => u.input_tokens.getD 0)).getD 0

/-- This call's contribution to the accumulated output tokens. -/
def callOutputTokens (body : ResponseBody) : Nat :=
  (body.usage.map (fun u => u.output_tokens.getD 0)).getD 0

/-- The accumulator after a sequence of `invokeModel` calls, starting from the
zero-initialised `totalTokens` field of a fresh `BedrockClient`. -/
def runCalls (bodies : List ResponseBody) : TokenUsage :=
  bodies.foldl invokeModelUpdate
    { inputTokens := 0, outputTokens := 0, totalTokens := 0 }

/-- `analyzeFrames` after the model responded: `invokeModel` (which performs
the accounting) followed by `JSON.parse(result.text)`, whose outcome is given
by a parse oracle and which happens after the accumulator update. -/
def analyzeFramesClient (parse : String → Except String FrameAnalysisResult)
    (acc : TokenUsage) (body : ResponseBody) :
    TokenUsage × Except String FrameAnalysisResult :=
  let r := invokeModel acc body
  (r.1, parse r.2.text)

/-- Significance level of a key event in the final summary. -/
inductive Significance where
  | HIGH
  | MEDIUM
  | LOW
deriving DecidableEq, Repr

/-- The `VideoAnalysisSummary` interface: the pipeline's terminal product. -/
structure VideoAnalysisSummary where
  summary : String
  key_events : List (String × Significance)
  people : Option (List String)
  items : List String
  pattern : String
  anomalies : List String
  risk_assessment : String
deriving DecidableEq, Repr

/-- `generateSummary` after the prompt was built: one `invokeModel` call whose
outcome is `invokeResult` (an exception or a response), followed by
`JSON.parse(result.text)` against the `VideoAnalysisSummary` schema, whose
outcome is given by the parse oracle.  Either failure is thrown. -/
def generateSummaryClient (invokeResult : Except String ApiResponse)
    (parse : String → Except String VideoAnalysisSummary) :
    Except String VideoAnalysisSummary :=
  match invokeResult with
  | Except.error e => Except.error e
  | Except.ok r => parse r.text

end BedrockClient

namespace VideoAnalyzer

/-- The scratch-storage state the orchestrator touches: whether the run's
temporary download directory `tmp_<uuid>` exists, and whether the frames
directory `<outputDir>/frames` (created by `sampleVideoFrames` via
`setupDirectory` and filled with the extracted frame images) exists. -/
structure FS where
  tempDirExists : Bool
  framesDirExists : Bool
deriving DecidableEq, Repr

/-- `cleanup()`: `rimraf` of the temporary directory (after an existence
check, with the same net effect).  It touches nothing else. -/
def cleanupFS (fs : FS) : FS :=
  { fs with tempDirExists := false }

/-- `generateVideoSummary(frameDescriptions)`: one `bedrock.generateSummary`
call; on failure the error is rethrown wrapped in a fatal message. -/
def generateVideoSummary
    (summarize : List String → Except String BedrockClient.VideoAnalysisSummary)
    (frameDescriptions : List String) :
    Except String BedrockClient.VideoAnalysisSummary :=
  match summarize frameDescriptions with
  | Except.ok s => Except.ok s
  | Except.error e => Except.error ("비디오 요약 생성 실패: " ++ e)

/-- The `analyze()` pipeline over the scratch-storage state, mirroring its
`try`/`finally` structure.  `downloadOk` is the outcome of
`downloadVideoFromUrl` (writing into the temp directory); `sampleVideoFrames`
first creates the frames directory via `setupDirectory` and then may fail
(`sampleOk`); then sliding-window segmentation, the per-window description
loop (which never throws) and the final summary run; whatever the outcome,
the `finally` block runs `cleanup()`.  The returned pair is the scratch state
at exit and the thrown-or-returned result. -/
def analyzeRun (downloadOk sampleOk : Bool) (sf : SampledFrames)
    (batchSize slideSize : Nat) (oracle : AnalyzeOracle)
    (summarize : List String → Except String BedrockClient.VideoAnalysisSummary)
    (fs : FS) : FS × Except String BedrockClient.VideoAnalysisSummary :=
  let body : FS × Except String BedrockClient.VideoAnalysisSummary :=
    if downloadOk = false then (fs, Except.error "비디오 다운로드 오류") else
    let fs1 : FS := { fs with framesDirExists := true }
    if sampleOk = false then (fs1, Except.error "프레임 샘플링 실패") else
    match applySlidingWindow sf batchSize slideSize with
    | Except.error e => (fs1, Except.error e)
    | Except.ok seg =>
      match generateVideoSummary summarize
          (generateFrameDescriptions oracle seg.windows) with
      | Except.ok s => (fs1, Except.ok s)
      | Except.error e => (fs1, Except.error e)
  (cleanupFS body.1, body.2)

/-- Whitespace skipped by JavaScript `parseInt` before reading digits. -/
def isJsSpace (c : Char) : Bool :=
  c = ' ' || c = '\t' || c = '\n' || c = '\r'

/-- Numeric value of a list of decimal digit characters. -/
def digitsVal (ds : List Char) : Nat :=
  ds.foldl (fun a c => a * 10 + (c.toNat - '0'.toNat)) 0

/-- JavaScript `parseInt(s, 10)`: skip leading whitespace, read an optional
sign, then the longest prefix of decimal digits; `NaN` (here `none`) when
that prefix is empty. -/
def parseInt10 (s : String) : Option Int :=
  let cs := s.data.dropWhile isJsSpace
  match cs with
  | '-' :: rest =>
    let ds := rest.takeWhile Char.isDigit
    if ds.isEmpty then none else some (-(digitsVal ds : Int))
  | '+' :: rest =>
    let ds := rest.takeWhile Char.isDigit
    if ds.isEmpty then none else some (digitsVal ds : Int)
  | _ =>
    let ds := cs.takeWhile Char.isDigit
    if ds.isEmpty then none else some (digitsVal ds : Int)

/-- The total-frame-count computation of `getVideoInfo` (lines 201–214):
`frameCount = parseInt(videoStream.nb_frames || "0", 10)`; when that is `NaN`
and the stream has a (truthy) `duration` and a truthy (nonzero) `fps`,
`frameCount = Math.ceil(parseFloat(duration) * fps)`; the resolved value is
`isNaN(frameCount) ? 0 : frameCount`.  `nb_frames` is the raw metadata string
(`none` when the field is absent; the empty string is falsy and also falls
back to `"0"`).  `duration` is carried as the already-parsed rational value of
`parseFloat(videoStream.duration)`, with `none` for an absent, empty or
non-numeric (`NaN`) duration — in all three of those cases the code resolves
the still-`NaN` frame count to `0`, which is what `none` yields here. -/
def computeFrameCount (fps : ℚ) (nb_frames : Option String)
    (duration : Option ℚ) : Int :=
  let raw : String :=
    match nb_frames with
    | some s => if s.isEmpty then "0" else s
    | none => "0"
  match parseInt10 raw with
  | some v => v
  | none =>
    match duration with
    | some d => if fps ≠ 0 then Int.ceil (d * fps) else 0
    | none => 0

end VideoAnalyzer

namespace VideoAnalyzer

/-- Past the last valid start the loop body is skipped and the loop returns
at once (one fuel step). -/
lemma windowLoop_stop (sf : SampledFrames) (b s L : Nat) (fuel i : Nat)
    (hi : L < i) (hf : 1 ≤ fuel) :
    windowLoop sf b s L fuel i = some [] := by
  cases fuel with
  | zero => omega
  | succ f => simp [windowLoop, Nat.not_le.mpr hi]

/-- Mapping a function over `List.range (n + 1)` peels off the head. -/
lemma map_range_succ {α : Type} (g : Nat → α) (n : Nat) :
    (List.range (n + 1)).map g = g 0 :: (List.range n).map (fun k => g (k + 1)) := by
  rw [List.range_succ_eq_map]
  simp [List.map_map]

/-- With a positive slide size and enough fuel, the loop started at `i ≤ L`
produces exactly the windows at starts `i, i + s, …`, one per
`k < (L - i) / s + 1`. -/
lemma windowLoop_run (sf : SampledFrames) (b s L : Nat) (hs : 1 ≤ s) :
    ∀ fuel i, i ≤ L → (L - i) / s + 2 ≤ fuel →
      windowLoop sf b s L fuel i =
        some ((List.range ((L - i) / s + 1)).map
          (fun k => windowSlice sf b (i + k * s))) := by
  intro fuel
  induction fuel with
  | zero => intro i hi hf; exact absurd hf (Nat.not_succ_le_zero _)
  | succ f ih =>
    intro i hi hf
    by_cases hnext : i + s ≤ L
    · obtain ⟨m, hm⟩ : ∃ m, L - i = m + s := ⟨L - i - s, by omega⟩
      have hdiv : (L - i) / s = m / s + 1 := by
        rw [hm, Nat.add_div_right _ hs]
      have hm2 : L - (i + s) = m := by omega
      have hrec := ih (i + s) hnext (by rw [hm2]; omega)
      rw [hm2] at hrec
      simp only [windowLoop, if_pos hi, hrec]
      rw [hdiv]
      conv_rhs => rw [map_range_succ (fun k => windowSlice sf b (i + k * s)) (m / s + 1)]
      congr 2
      · simp
      · apply List.map_congr_left
        intro k _
        congr 1
        ring
    · have hdiv : (L - i) / s = 0 := Nat.div_eq_of_lt (by omega)
      have hrec := windowLoop_stop sf b s L f (i + s) (by omega) (by omega)
      simp only [windowLoop, if_pos hi, hrec]
      rw [hdiv,
        map_range_succ (fun k => windowSlice sf b (i + k * s)) 0]
      simp

/-- With `batchSize ≤ n` and `slideSize ≥ 1`, segmentation succeeds and the
window list is exactly one `windowSlice` per start index `k · slideSize`,
`k < (n - batchSize) / slideSize + 1`, alongside the advisory coverage
warning. -/
lemma applySlidingWindow_ok (sf : SampledFrames) (b s : Nat)
    (hb : b ≤ sf.framePaths.length) (hs : 1 ≤ s) :
    applySlidingWindow sf b s =
      Except.ok
        { warning := coverageWarning sf.framePaths.length b s
          windows := (List.range ((sf.framePaths.length - b) / s + 1)).map
            (fun k => windowSlice sf b (k * s)) } := by
  have hloop := windowLoop_run sf b s (sf.framePaths.length - b) hs
    (sf.framePaths.length - b + 2) 0 (Nat.zero_le _)
    (by
      simp only [Nat.sub_zero]
      exact Nat.add_le_add_right (Nat.div_le_self _ s) 2)
  simp only [Nat.sub_zero, Nat.zero_add] at hloop
  unfold applySlidingWindow
  rw [if_neg (by omega)]
  simp only [hloop]

/-- One step of the instrumented description loop: the head entry records the
incoming context and the call's outcome, and the tail continues from the
context after that entry. -/
lemma gfdTrace_cons (oracle : AnalyzeOracle) (w : SampledFrames)
    (ws : List SampledFrames) (prev : String) :
    gfdTrace oracle (w :: ws) prev =
      (prev, oracle w prev) ::
        gfdTrace oracle ws (ctxAfter (prev, oracle w prev)) := by
  cases h : oracle w prev with
  | ok r => simp [gfdTrace, h, ctxAfter]
  | error e => simp [gfdTrace, h, ctxAfter]

/-- The trace has one entry per window. -/
lemma gfdTrace_length (oracle : AnalyzeOracle) :
    ∀ (ws : List SampledFrames) (prev : String),
      (gfdTrace oracle ws prev).length = ws.length := by
  intro ws
  induction ws with
  | nil => intro prev; rfl
  | cons w ws ih => intro prev; rw [gfdTrace_cons]; simp [ih]

/-- The first trace entry is passed the starting context. -/
lemma gfdTrace_get_zero (oracle : AnalyzeOracle) (ws : List SampledFrames)
    (prev : String) (h : 0 < (gfdTrace oracle ws prev).length) :
    ((gfdTrace oracle ws prev).get ⟨0, h⟩).1 = prev := by
  cases ws with
  | nil => simp [gfdTrace] at h
  | cons w ws =>
    simp only [gfdTrace_cons, List.get_eq_getElem, List.getElem_cons_zero]

/-- Each trace entry after the first is passed exactly the context left
behind by the previous entry: the previous summary after a success, the
previous entry's own incoming context after a failure. -/
lemma gfdTrace_step (oracle : AnalyzeOracle) :
    ∀ (ws : List SampledFrames) (prev : String) (i : Nat)
      (h1 : i + 1 < (gfdTrace oracle ws prev).length)
      (h0 : i < (gfdTrace oracle ws prev).length),
      ((gfdTrace oracle ws prev).get ⟨i + 1, h1⟩).1 =
        ctxAfter ((gfdTrace oracle ws prev).get ⟨i, h0⟩) := by
  intro ws
  induction ws with
  | nil => intro prev i h1 h0; simp [gfdTrace] at h1
  | cons w ws ih =>
    intro prev i h1 h0
    rcases i with _ | j
    · have h1' : 0 < (gfdTrace oracle ws (ctxAfter (prev, oracle w prev))).length := by
        have := h1
        rw [gfdTrace_cons] at this
        simpa using this
      simp only [gfdTrace_cons, List.get_eq_getElem, List.getElem_cons_succ,
        List.getElem_cons_zero]
      exact gfdTrace_get_zero oracle ws (ctxAfter (prev, oracle w prev)) h1'
    · have h1' : j + 1 < (gfdTrace oracle ws (ctxAfter (prev, oracle w prev))).length := by
        have := h1
        rw [gfdTrace_cons] at this
        simpa using this
      have h0' : j < (gfdTrace oracle ws (ctxAfter (prev, oracle w prev))).length := by
        omega
      simp only [gfdTrace_cons, List.get_eq_getElem, List.getElem_cons_succ]
      exact ih (ctxAfter (prev, oracle w prev)) j h1' h0'

/-- Provenance of the context passed to each window: either every earlier
call failed and the context is still the starting one, or it is the
`sequence_summary` of the most recent successful earlier call. -/
lemma gfdTrace_provenance (oracle : AnalyzeOracle) (ws : List SampledFrames)
    (prev : String) :
    ∀ (i : Nat) (hi : i < (gfdTrace oracle ws prev).length),
      (((gfdTrace oracle ws prev).get ⟨i, hi⟩).1 = prev ∧
        ∀ (k : Nat) (hk : k < (gfdTrace oracle ws prev).length), k < i →
          ∀ r, ((gfdTrace oracle ws prev).get ⟨k, hk⟩).2 ≠ Except.ok r) ∨
      (∃ (j : Nat) (hj : j < (gfdTrace oracle ws prev).length), j < i ∧
        ∃ r, ((gfdTrace oracle ws prev).get ⟨j, hj⟩).2 = Except.ok r ∧
          ((gfdTrace oracle ws prev).get ⟨i, hi⟩).1 = r.sequence_summary ∧
          ∀ (k : Nat) (hk : k < (gfdTrace oracle ws prev).length),
            j < k → k < i →
            ∀ r2, ((gfdTrace oracle ws prev).get ⟨k, hk⟩).2 ≠ Except.ok r2) := by
  intro i
  induction i with
  | zero =>
    intro hi
    exact Or.inl ⟨gfdTrace_get_zero oracle ws prev hi, fun k hk hki => by omega⟩
  | succ n ih =>
    intro hi
    have hn : n < (gfdTrace oracle ws prev).length := by omega
    have hstep := gfdTrace_step oracle ws prev n hi hn
    cases hres : ((gfdTrace oracle ws prev).get ⟨n, hn⟩).2 with
    | ok r =>
      refine Or.inr ⟨n, hn, Nat.lt_succ_self n, r, hres, ?_, ?_⟩
      · rw [hstep]
        simp only [ctxAfter, List.get_eq_getElem] at hres ⊢
        rw [hres]
      · intro k hk hnk hkn; omega
    | error e =>
      have hctx : ((gfdTrace oracle ws prev).get ⟨n + 1, hi⟩).1 =
          ((gfdTrace oracle ws prev).get ⟨n, hn⟩).1 := by
        rw [hstep]
        simp only [ctxAfter, List.get_eq_getElem] at hres ⊢
        rw [hres]
      rcases ih hn with ⟨hprev, hfail⟩ | ⟨j, hj, hjn, r, hok, hsum, hbetween⟩
      · refine Or.inl ⟨by rw [hctx]; exact hprev, ?_⟩
        intro k hk hki r2
        rcases Nat.lt_or_ge k n with hkn | hkn
        · exact hfail k hk hkn r2
        · have : k = n := by omega
          subst this
          rw [hres]
          intro hcon
          exact Except.noConfusion hcon
      · refine Or.inr ⟨j, hj, by omega, r, hok, by rw [hctx]; exact hsum, ?_⟩
        intro k hk hjk hki r2
        rcases Nat.lt_or_ge k n with hkn | hkn
        · exact hbetween k hk hjk hkn r2
        · have : k = n := by omega
          subst this
          rw [hres]
          intro hcon
          exact Except.noConfusion hcon

/-- The produced description list is the entry-wise reading of the trace:
the summary for a successful entry, the placeholder for a failed one. -/
lemma gfdLoop_eq_trace (oracle : AnalyzeOracle) :
    ∀ (ws : List SampledFrames) (prev : String),
      gfdLoop oracle ws prev =
        (gfdTrace oracle ws prev).map entryDescription := by
  intro ws
  induction ws with
  | nil => intro prev; rfl
  | cons w ws ih =>
    intro prev
    cases h : oracle w prev with
    | ok r => simp [gfdLoop, gfdTrace, h, entryDescription, ih]
    | error e => simp [gfdLoop, gfdTrace, h, entryDescription, ih]

end VideoAnalyzer

namespace BedrockClient

/-- Folding the `invokeModel` accumulator update over a call sequence adds
exactly the per-call contributions, and keeps `totalTokens` equal to the sum
of the other two fields whenever it starts that way. -/
lemma foldl_invokeModelUpdate (bodies : List ResponseBody) :
    ∀ acc : TokenUsage, acc.totalTokens = acc.inputTokens + acc.outputTokens →
      bodies.foldl invokeModelUpdate acc =
        { inputTokens := acc.inputTokens + (bodies.map callInputTokens).sum
          outputTokens := acc.outputTokens + (bodies.map callOutputTokens).sum
          totalTokens := acc.inputTokens + (bodies.map callInputTokens).sum +
            (acc.outputTokens + (bodies.map callOutputTokens).sum) } := by
  induction bodies with
  | nil =>
    intro acc h
    cases acc
    simp only [TokenUsage.mk.injEq] at h ⊢
    simp [List.foldl_nil, h]
  | cons b bs ih =>
    intro acc h
    simp only [List.foldl_cons, List.map_cons, List.sum_cons]
    cases hu : b.usage with
    | none =>
      have hupd : invokeModelUpdate acc b = acc := by
        simp [invokeModelUpdate, hu]
      have hin : callInputTokens b = 0 := by simp [callInputTokens, hu]
      have hout : callOutputTokens b = 0 := by simp [callOutputTokens, hu]
      rw [hupd, ih acc h, hin, hout]
      simp
    | some u =>
      have hupd : invokeModelUpdate acc b =
          { inputTokens := acc.inputTokens + u.input_tokens.getD 0
            outputTokens := acc.outputTokens + u.output_tokens.getD 0
            totalTokens := acc.inputTokens + u.input_tokens.getD 0 +
              (acc.outputTokens + u.output_tokens.getD 0) } := by
        simp [invokeModelUpdate, hu]
      have hin : callInputTokens b = u.input_tokens.getD 0 := by
        simp [callInputTokens, hu]
      have hout : callOutputTokens b = u.output_tokens.getD 0 := by
        simp [callOutputTokens, hu]
      rw [hupd, ih _ rfl, hin, hout]
      simp only [TokenUsage.mk.injEq]
      omega

end BedrockClient

/-! Concrete inputs used by the witness and counterexample theorems. -/

/-- A five-frame sample set. -/
def sfFive : VideoAnalyzer.SampledFrames :=
  { framePaths := ["frame_000001.jpg", "frame_000002.jpg", "frame_000003.jpg",
      "frame_000004.jpg", "frame_000005.jpg"]
    indices := [1, 2, 3, 4, 5] }

/-- A single-frame sample set. -/
def sfOne : VideoAnalyzer.SampledFrames :=
  { framePaths := ["frame_000001.jpg"], indices := [1] }

/-- A three-window list for exercising the description loop. -/
def windowsThree : List VideoAnalyzer.SampledFrames :=
  [{ framePaths := ["a.jpg"], indices := [0] },
   { framePaths := ["b.jpg"], indices := [1] },
   { framePaths := ["c.jpg"], indices := [2] }]

/-- An oracle that succeeds on the first of `windowsThree` and fails on the
rest. -/
def oracleFirstOk : VideoAnalyzer.AnalyzeOracle := fun w _ =>
  if w.indices = [0] then
    Except.ok { sequence_summary := "첫 번째 요약", key_events := [] }
  else
    Except.error "invoke failed"

/-- An oracle whose calls always fail. -/
def oracleFail : VideoAnalyzer.AnalyzeOracle := fun _ _ =>
  Except.error "invoke failed"

/-- A concrete final summary value. -/
def summaryValue : BedrockClient.VideoAnalysisSummary :=
  { summary := "요약", key_events := [], people := none, items := []
    pattern := "패턴", anomalies := [], risk_assessment := "낮음" }

/-- A summarizer that always succeeds with `summaryValue`. -/
def summarizeOk :
    List String → Except String BedrockClient.VideoAnalysisSummary :=
  fun _ => Except.ok summaryValue

/-- A summarizer whose model call / parse always fails. -/
def summarizeFail :
    List String → Except String BedrockClient.VideoAnalysisSummary :=
  fun _ => Except.error "unparseable response"

/-- Claim C1: for every frame list of length `n` and parameters
`batchSize ≤ n`, `slideSize ≥ 1`, `applySlidingWindow` succeeds with exactly
`⌊(n − batchSize)/slideSize⌋ + 1` windows; window `k` is the contiguous slice
of the input starting at index `k·slideSize` (both `framePaths` and
`indices`), and every produced window has exactly `batchSize` frames — no
shorter window is ever produced. -/
theorem sliding_window_shape (sf : VideoAnalyzer.SampledFrames)
    (batchSize slideSize : Nat)
    (hlen : sf.indices.length = sf.framePaths.length)
    (hb : batchSize ≤ sf.framePaths.length) (hs : 1 ≤ slideSize) :
    ∃ res, VideoAnalyzer.applySlidingWindow sf batchSize slideSize =
        Except.ok res ∧
      res.windows.length =
        (sf.framePaths.length - batchSize) / slideSize + 1 ∧
      (∀ (k : Nat) (hk : k < res.windows.length),
        (res.windows.get ⟨k, hk⟩).framePaths =
          (sf.framePaths.drop (k * slideSize)).take batchSize ∧
        (res.windows.get ⟨k, hk⟩).indices =
          (sf.indices.drop (k * slideSize)).take batchSize) ∧
      ∀ w ∈ res.windows, w.framePaths.length = batchSize ∧
        w.indices.length = batchSize := by
  refine ⟨_, VideoAnalyzer.applySlidingWindow_ok sf batchSize slideSize hb hs,
    ?_, ?_, ?_⟩
  · simp
  · intro k hk
    simp only [List.get_eq_getElem, List.getElem_map, List.getElem_range]
    exact ⟨rfl, rfl⟩
  · intro w hw
    simp only [List.mem_map, List.mem_range] at hw
    obtain ⟨k, hk, rfl⟩ := hw
    have hks : k * slideSize ≤ sf.framePaths.length - batchSize := by
      calc k * slideSize ≤
          ((sf.framePaths.length - batchSize) / slideSize) * slideSize :=
            Nat.mul_le_mul_right _ (by omega)
        _ ≤ sf.framePaths.length - batchSize := Nat.div_mul_le_self _ _
    constructor
    · simp only [VideoAnalyzer.windowSlice, List.length_take, List.length_drop]
      omega
    · simp only [VideoAnalyzer.windowSlice, List.length_take, List.length_drop,
        hlen]
      omega

/-- Witness for `sliding_window_shape`: five frames, `batchSize = 3`,
`slideSize = 1`. -/
theorem sliding_window_shape_witness :
    ∃ res, VideoAnalyzer.applySlidingWindow sfFive 3 1 = Except.ok res ∧
      res.windows.length = (sfFive.framePaths.length - 3) / 1 + 1 ∧
      (∀ (k : Nat) (hk : k < res.windows.length),
        (res.windows.get ⟨k, hk⟩).framePaths =
          (sfFive.framePaths.drop (k * 1)).take 3 ∧
        (res.windows.get ⟨k, hk⟩).indices =
          (sfFive.indices.drop (k * 1)).take 3) ∧
      ∀ w ∈ res.windows, w.framePaths.length = 3 ∧ w.indices.length = 3 :=
  sliding_window_shape sfFive 3 1 (by decide) (by decide) (by decide)

/-- Claim C4: with `batchSize ≤ n` and `slideSize ≥ 1`, segmentation succeeds
even when `(n − batchSize) mod slideSize ≠ 0`; in that case the segmenter
computes the uncovered-tail count `(n − batchSize) mod slideSize` together
with exactly the slide sizes `s ∈ [1, batchSize − 1]` with
`(n − batchSize) mod s = 0`; when the remainder is zero no warning is
produced. -/
theorem coverage_warning_advisory (sf : VideoAnalyzer.SampledFrames)
    (batchSize slideSize : Nat)
    (hb : batchSize ≤ sf.framePaths.length) (hs : 1 ≤ slideSize) :
    ∃ res, VideoAnalyzer.applySlidingWindow sf batchSize slideSize =
        Except.ok res ∧
      ((sf.framePaths.length - batchSize) % slideSize ≠ 0 →
        ∃ l, res.warning =
            some ((sf.framePaths.length - batchSize) % slideSize, l) ∧
          ∀ x : Nat, x ∈ l ↔ 1 ≤ x ∧ x ≤ batchSize - 1 ∧
            (sf.framePaths.length - batchSize) % x = 0) ∧
      ((sf.framePaths.length - batchSize) % slideSize = 0 →
        res.warning = none) := by
  refine ⟨_, VideoAnalyzer.applySlidingWindow_ok sf batchSize slideSize hb hs,
    ?_, ?_⟩
  · intro hnz
    refine ⟨((List.range (batchSize - 1)).map (fun i => i + 1)).filter
      (fun i => (sf.framePaths.length - batchSize) % i == 0), ?_, ?_⟩
    · simp [VideoAnalyzer.coverageWarning, hnz]
    · intro x
      simp only [List.mem_filter, List.mem_map, List.mem_range, beq_iff_eq]
      constructor
      · rintro ⟨⟨i, hi, rfl⟩, hmod⟩
        exact ⟨by omega, by omega, hmod⟩
      · rintro ⟨h1, h2, hmod⟩
        exact ⟨⟨x - 1, by omega, by omega⟩, hmod⟩
  · intro hz
    simp [VideoAnalyzer.coverageWarning, hz]

/-- Witness for `coverage_warning_advisory`: five frames, `batchSize = 2`,
`slideSize = 2`, so `(5 − 2) mod 2 = 1` frames stay uncovered. -/
theorem coverage_warning_advisory_witness :
    ∃ res, VideoAnalyzer.applySlidingWindow sfFive 2 2 = Except.ok res ∧
      ((sfFive.framePaths.length - 2) % 2 ≠ 0 →
        ∃ l, res.warning = some ((sfFive.framePaths.length - 2) % 2, l) ∧
          ∀ x : Nat, x ∈ l ↔ 1 ≤ x ∧ x ≤ 2 - 1 ∧
            (sfFive.framePaths.length - 2) % x = 0) ∧
      ((sfFive.framePaths.length - 2) % 2 = 0 → res.warning = none) :=
  coverage_warning_advisory sfFive 2 2 (by decide) (by decide)

/-- Claim C5: whenever `batchSize` exceeds the frame count, segmentation
fails with the configuration error, and the whole pipeline (run up to that
point) surfaces that error for every oracle and summarizer — so no window
list is returned and no inference call can influence the outcome. -/
theorem batch_exceeds_frames_config_error (sf : VideoAnalyzer.SampledFrames)
    (batchSize slideSize : Nat)
    (hb : sf.framePaths.length < batchSize) :
    ∃ msg, VideoAnalyzer.applySlidingWindow sf batchSize slideSize =
        Except.error msg ∧
      ∀ (oracle : VideoAnalyzer.AnalyzeOracle)
        (summarize :
          List String → Except String BedrockClient.VideoAnalysisSummary)
        (fs : VideoAnalyzer.FS),
        (VideoAnalyzer.analyzeRun true true sf batchSize slideSize oracle
          summarize fs).2 = Except.error msg := by
  have happ : VideoAnalyzer.applySlidingWindow sf batchSize slideSize =
      Except.error ("배치 크기(" ++ toString batchSize ++ ")는 총 프레임 수(" ++
        toString sf.framePaths.length ++ ")보다 클 수 없습니다") := by
    unfold VideoAnalyzer.applySlidingWindow
    rw [if_pos (by omega)]
  refine ⟨_, happ, ?_⟩
  intro oracle summarize fs
  simp [VideoAnalyzer.analyzeRun, happ]

/-- Witness for `batch_exceeds_frames_config_error`: one frame,
`batchSize = 2`. -/
theorem batch_exceeds_frames_config_error_witness :
    ∃ msg, VideoAnalyzer.applySlidingWindow sfOne 2 1 = Except.error msg ∧
      ∀ (oracle : VideoAnalyzer.AnalyzeOracle)
        (summarize :
          List String → Except String BedrockClient.VideoAnalysisSummary)
        (fs : VideoAnalyzer.FS),
        (VideoAnalyzer.analyzeRun true true sfOne 2 1 oracle summarize fs).2 =
          Except.error msg :=
  batch_exceeds_frames_config_error sfOne 2 1 (by decide)

/-- Claim C10: with `batchSize ≤ n` the window-generation loop terminates for
every `slideSize ≥ 1` (some fuel bound suffices), while for `slideSize = 0`
the loop index never advances and no amount of fuel makes it finish —
`slideSize ≥ 1` is a genuine precondition that the function itself never
validates. -/
theorem window_loop_termination (sf : VideoAnalyzer.SampledFrames)
    (batchSize slideSize : Nat) (hb : batchSize ≤ sf.framePaths.length) :
    (1 ≤ slideSize →
      ∃ ws, VideoAnalyzer.windowLoop sf batchSize slideSize
        (sf.framePaths.length - batchSize)
        (sf.framePaths.length - batchSize + 2) 0 = some ws) ∧
    (slideSize = 0 →
      ∀ fuel, VideoAnalyzer.windowLoop sf batchSize slideSize
        (sf.framePaths.length - batchSize) fuel 0 = none) := by
  constructor
  · intro hs
    exact ⟨_, VideoAnalyzer.windowLoop_run sf batchSize slideSize
      (sf.framePaths.length - batchSize) hs
      (sf.framePaths.length - batchSize + 2) 0 (Nat.zero_le _)
      (by
        simp only [Nat.sub_zero]
        exact Nat.add_le_add_right (Nat.div_le_self _ _) 2)⟩
  · rintro rfl fuel
    induction fuel with
    | zero => rfl
    | succ f ih =>
      simp [VideoAnalyzer.windowLoop, ih]

/-- Witness for `window_loop_termination`: one frame, `batchSize = 1`,
`slideSize = 1`. -/
theorem window_loop_termination_witness :
    ∃ ws, VideoAnalyzer.windowLoop sfOne 1 1 (sfOne.framePaths.length - 1)
      (sfOne.framePaths.length - 1 + 2) 0 = some ws :=
  (window_loop_termination sfOne 1 1 (by decide)).1 (by decide)

/-- Claim C2: in the per-window fold, the context passed to the first
analysis call is the sentinel `"None"`; the context passed to every later
call is the `sequence_summary` of the previous call when it succeeded and the
unchanged previous context when it failed; consequently every context is
either the sentinel or the `sequence_summary` of the most recent successful
earlier window — never a failure placeholder. -/
theorem running_context_propagation (oracle : VideoAnalyzer.AnalyzeOracle)
    (windows : List VideoAnalyzer.SampledFrames) :
    (∀ h0 : 0 < (VideoAnalyzer.gfdTrace oracle windows "None").length,
      ((VideoAnalyzer.gfdTrace oracle windows "None").get ⟨0, h0⟩).1 =
        "None") ∧
    (∀ (i : Nat)
      (h1 : i + 1 < (VideoAnalyzer.gfdTrace oracle windows "None").length)
      (h0 : i < (VideoAnalyzer.gfdTrace oracle windows "None").length),
      ((VideoAnalyzer.gfdTrace oracle windows "None").get ⟨i + 1, h1⟩).1 =
        VideoAnalyzer.ctxAfter
          ((VideoAnalyzer.gfdTrace oracle windows "None").get ⟨i, h0⟩)) ∧
    (∀ (i : Nat)
      (hi : i < (VideoAnalyzer.gfdTrace oracle windows "None").length),
      (((VideoAnalyzer.gfdTrace oracle windows "None").get ⟨i, hi⟩).1 =
          "None" ∧
        ∀ (k : Nat)
          (hk : k < (VideoAnalyzer.gfdTrace oracle windows "None").length),
          k < i → ∀ r,
            ((VideoAnalyzer.gfdTrace oracle windows "None").get
              ⟨k, hk⟩).2 ≠ Except.ok r) ∨
      (∃ (j : Nat)
        (hj : j < (VideoAnalyzer.gfdTrace oracle windows "None").length),
        j < i ∧ ∃ r,
          ((VideoAnalyzer.gfdTrace oracle windows "None").get ⟨j, hj⟩).2 =
            Except.ok r ∧
          ((VideoAnalyzer.gfdTrace oracle windows "None").get ⟨i, hi⟩).1 =
            r.sequence_summary ∧
          ∀ (k : Nat)
            (hk : k < (VideoAnalyzer.gfdTrace oracle windows "None").length),
            j < k → k < i → ∀ r2,
              ((VideoAnalyzer.gfdTrace oracle windows "None").get
                ⟨k, hk⟩).2 ≠ Except.ok r2)) :=
  ⟨fun h0 => VideoAnalyzer.gfdTrace_get_zero oracle windows "None" h0,
   fun i h1 h0 => VideoAnalyzer.gfdTrace_step oracle windows "None" i h1 h0,
   fun i hi => VideoAnalyzer.gfdTrace_provenance oracle windows "None" i hi⟩

/-- Witness for `running_context_propagation`: with an oracle succeeding only
on the first of three windows, the first call receives `"None"`. -/
theorem running_context_propagation_witness :
    ((VideoAnalyzer.gfdTrace oracleFirstOk windowsThree "None").get
      ⟨0, by decide⟩).1 = "None" :=
  (running_context_propagation oracleFirstOk windowsThree).1 (by decide)

/-- Claim C3: for every oracle and every window list of length `m`,
`generateFrameDescriptions` returns exactly `m` descriptions; entry `i` is
the failure placeholder exactly when window `i`'s call failed and that
window's `sequence_summary` when it succeeded — the fold is total, so no
per-window failure ever propagates out of it. -/
theorem per_window_failure_isolation (oracle : VideoAnalyzer.AnalyzeOracle)
    (windows : List VideoAnalyzer.SampledFrames) :
    (VideoAnalyzer.generateFrameDescriptions oracle windows).length =
      windows.length ∧
    VideoAnalyzer.generateFrameDescriptions oracle windows =
      (VideoAnalyzer.gfdTrace oracle windows "None").map
        VideoAnalyzer.entryDescription ∧
    ∀ (i : Nat)
      (hd : i < (VideoAnalyzer.generateFrameDescriptions oracle
        windows).length)
      (ht : i < (VideoAnalyzer.gfdTrace oracle windows "None").length),
      (∀ e, ((VideoAnalyzer.gfdTrace oracle windows "None").get
          ⟨i, ht⟩).2 = Except.error e →
        (VideoAnalyzer.generateFrameDescriptions oracle windows).get
          ⟨i, hd⟩ = VideoAnalyzer.failureText) ∧
      (∀ r, ((VideoAnalyzer.gfdTrace oracle windows "None").get
          ⟨i, ht⟩).2 = Except.ok r →
        (VideoAnalyzer.generateFrameDescriptions oracle windows).get
          ⟨i, hd⟩ = r.sequence_summary) := by
  have hmap := VideoAnalyzer.gfdLoop_eq_trace oracle windows "None"
  refine ⟨?_, hmap, ?_⟩
  · rw [VideoAnalyzer.generateFrameDescriptions, hmap]
    simp [VideoAnalyzer.gfdTrace_length]
  · intro i hd ht
    have hget : (VideoAnalyzer.generateFrameDescriptions oracle windows).get
        ⟨i, hd⟩ = VideoAnalyzer.entryDescription
          ((VideoAnalyzer.gfdTrace oracle windows "None").get ⟨i, ht⟩) := by
      simp only [VideoAnalyzer.generateFrameDescriptions, hmap,
        List.get_eq_getElem, List.getElem_map]
    constructor
    · intro e he
      rw [hget]
      simp only [List.get_eq_getElem] at he
      simp [VideoAnalyzer.entryDescription, List.get_eq_getElem, he]
    · intro r hr
      rw [hget]
      simp only [List.get_eq_getElem] at hr
      simp [VideoAnalyzer.entryDescription, List.get_eq_getElem, hr]

/-- Witness for `per_window_failure_isolation`: with an oracle succeeding
only on the first of three windows, the second description is the
placeholder. -/
theorem per_window_failure_isolation_witness :
    (VideoAnalyzer.generateFrameDescriptions oracleFirstOk
      windowsThree).get ⟨1, by decide⟩ = VideoAnalyzer.failureText :=
  ((per_window_failure_isolation oracleFirstOk windowsThree).2.2 1
    (by decide) (by decide)).1 "invoke failed" (by rfl)

/-- Claim C6: after any sequence of calls the accumulated totals equal the
sum of each completed call's reported `input_tokens` and `output_tokens`;
a response without a `usage` object contributes zero and leaves the
accumulator untouched; the accumulator is monotonically non-decreasing from
call to call; and the accumulator update of `analyzeFrames` does not depend
on the JSON parse of the response text, which happens afterwards. -/
theorem usage_accumulation :
    (∀ bodies : List BedrockClient.ResponseBody,
      (BedrockClient.runCalls bodies).inputTokens =
        (bodies.map BedrockClient.callInputTokens).sum ∧
      (BedrockClient.runCalls bodies).outputTokens =
        (bodies.map BedrockClient.callOutputTokens).sum ∧
      (BedrockClient.runCalls bodies).totalTokens =
        (bodies.map BedrockClient.callInputTokens).sum +
          (bodies.map BedrockClient.callOutputTokens).sum) ∧
    (∀ (bodies : List BedrockClient.ResponseBody)
        (b : BedrockClient.ResponseBody),
      (BedrockClient.runCalls bodies).inputTokens ≤
        (BedrockClient.runCalls (bodies ++ [b])).inputTokens ∧
      (BedrockClient.runCalls bodies).outputTokens ≤
        (BedrockClient.runCalls (bodies ++ [b])).outputTokens ∧
      (BedrockClient.runCalls bodies).totalTokens ≤
        (BedrockClient.runCalls (bodies ++ [b])).totalTokens) ∧
    (∀ (parse : String → Except String BedrockClient.FrameAnalysisResult)
        (acc : BedrockClient.TokenUsage) (body : BedrockClient.ResponseBody),
      (BedrockClient.analyzeFramesClient parse acc body).1 =
        BedrockClient.invokeModelUpdate acc body) ∧
    (∀ (acc : BedrockClient.TokenUsage) (t : String),
      BedrockClient.invokeModelUpdate acc { usage := none, text := t } =
        acc) := by
  have hrun : ∀ bodies : List BedrockClient.ResponseBody,
      BedrockClient.runCalls bodies =
        { inputTokens := (bodies.map BedrockClient.callInputTokens).sum
          outputTokens := (bodies.map BedrockClient.callOutputTokens).sum
          totalTokens := (bodies.map BedrockClient.callInputTokens).sum +
            (bodies.map BedrockClient.callOutputTokens).sum } := by
    intro bodies
    have := BedrockClient.foldl_invokeModelUpdate bodies
      { inputTokens := 0, outputTokens := 0, totalTokens := 0 } rfl
    simpa [BedrockClient.runCalls] using this
  refine ⟨?_, ?_, ?_, ?_⟩
  · intro bodies
    rw [hrun]
    exact ⟨rfl, rfl, rfl⟩
  · intro bodies b
    rw [hrun, hrun]
    simp only [List.map_append, List.sum_append, List.map_cons, List.sum_cons,
      List.map_nil, List.sum_nil, Nat.add_zero]
    omega
  · intro parse acc body
    rfl
  · intro acc t
    rfl

/-- Claim C7 counterexample: a run that completes successfully still leaves
the extracted frame images on disk — `analyze` only ever removes the
temporary download directory, while the frames live under
`outputDir/frames`, which no exit path deletes. -/
theorem scratch_frames_survive_exit :
    (VideoAnalyzer.analyzeRun true true sfOne 1 1 oracleFail summarizeOk
      { tempDirExists := true, framesDirExists := false }).1.framesDirExists =
        true ∧
    (VideoAnalyzer.analyzeRun true true sfOne 1 1 oracleFail summarizeOk
      { tempDirExists := true, framesDirExists := false }).2 =
        Except.ok summaryValue := by
  constructor
  · rfl
  · rfl

/-- Claim C7 (amended): on every exit path of `analyze` — any combination of
download failure, sampling failure, segmentation error, summary failure or
success — the temporary download directory is removed before control
returns; the extracted frame images are not covered by this guarantee. -/
theorem temp_dir_removed_every_exit (downloadOk sampleOk : Bool)
    (sf : VideoAnalyzer.SampledFrames) (batchSize slideSize : Nat)
    (oracle : VideoAnalyzer.AnalyzeOracle)
    (summarize : List String → Except String BedrockClient.VideoAnalysisSummary)
    (fs : VideoAnalyzer.FS) :
    (VideoAnalyzer.analyzeRun downloadOk sampleOk sf batchSize slideSize
      oracle summarize fs).1.tempDirExists = false :=
  rfl

/-- Claim C8, exercised on the code: with `fps = 2` and `duration = 5`, a
stream whose metadata has no `nb_frames` field yields a reported frame count
of `0` — the `|| "0"` default makes `parseInt` return `0`, so the
`duration × fps` fallback never fires — whereas an unparseable `nb_frames`
string (ffprobe's `"N/A"`) does take the fallback `⌈5 × 2⌉ = 10`, and an
explicit numeric `nb_frames` is used directly. -/
theorem frame_count_missing_fallback_bug :
    VideoAnalyzer.computeFrameCount 2 none (some 5) = 0 ∧
    VideoAnalyzer.computeFrameCount 2 (some "N/A") (some 5) = 10 ∧
    VideoAnalyzer.computeFrameCount 2 (some "42") (some 5) = 42 := by
  refine ⟨by decide, ?_, by decide⟩
  have hp : VideoAnalyzer.parseInt10 "N/A" = none := by decide
  have hraw : (if ("N/A").isEmpty then "0" else "N/A") = "N/A" := by decide
  simp only [VideoAnalyzer.computeFrameCount, hraw, hp]
  rw [if_pos (by norm_num)]
  norm_num

/-- Claim C9: if the final summarization call fails or its response does not
parse, the pipeline rethrows a fatal summary error to the caller — no
fallback or partial summary — and the client's summary call itself
propagates an invocation failure unchanged and otherwise just parses the
response text. -/
theorem summary_error_fatal (sf : VideoAnalyzer.SampledFrames)
    (batchSize slideSize : Nat) (oracle : VideoAnalyzer.AnalyzeOracle)
    (summarize : List String → Except String BedrockClient.VideoAnalysisSummary)
    (fs : VideoAnalyzer.FS) (seg : VideoAnalyzer.SegmentationResult)
    (e : String)
    (hseg : VideoAnalyzer.applySlidingWindow sf batchSize slideSize =
      Except.ok seg)
    (he : summarize (VideoAnalyzer.generateFrameDescriptions oracle
      seg.windows) = Except.error e) :
    (VideoAnalyzer.analyzeRun true true sf batchSize slideSize oracle
      summarize fs).2 = Except.error ("비디오 요약 생성 실패: " ++ e) ∧
    ∀ (invokeResult : Except String BedrockClient.ApiResponse)
      (parse : String → Except String BedrockClient.VideoAnalysisSummary),
      (∀ e0, invokeResult = Except.error e0 →
        BedrockClient.generateSummaryClient invokeResult parse =
          Except.error e0) ∧
      (∀ r, invokeResult = Except.ok r →
        BedrockClient.generateSummaryClient invokeResult parse =
          parse r.text) := by
  constructor
  · simp [VideoAnalyzer.analyzeRun, hseg, VideoAnalyzer.generateVideoSummary,
      he]
  · intro invokeResult parse
    constructor
    · rintro e0 rfl
      rfl
    · rintro r rfl
      rfl

/-- Witness for `summary_error_fatal`: one frame, one window, a failing
summarizer. -/
theorem summary_error_fatal_witness :
    (VideoAnalyzer.analyzeRun true true sfOne 1 1 oracleFail summarizeFail
      { tempDirExists := true, framesDirExists := false }).2 =
      Except.error ("비디오 요약 생성 실패: " ++ "unparseable response") ∧
    ∀ (invokeResult : Except String BedrockClient.ApiResponse)
      (parse : String → Except String BedrockClient.VideoAnalysisSummary),
      (∀ e0, invokeResult = Except.error e0 →
        BedrockClient.generateSummaryClient invokeResult parse =
          Except.error e0) ∧
      (∀ r, invokeResult = Except.ok r →
        BedrockClient.generateSummaryClient invokeResult parse =
          parse r.text) :=
  summary_error_fatal sfOne 1 1 oracleFail summarizeFail
    { tempDirExists := true, framesDirExists := false }
    { warning := none, windows := [sfOne] } "unparseable response"
    (by rfl) (by rfl)
